import Mathlib

/-!
Shallow embedding of the `spectrum` graphics host (src/src/lib.rs).

The program is a minimal wgpu/winit render loop. Its pure control logic is
embedded here: the GPU handles (instance, adapter, device, queue, surface,
window) are opaque resources whose observable interactions are recorded as an
explicit `Effect` trace, while the data the program actually branches on
(surface configuration, stored size, the `surface_configured` flag, the
`Option<State>` slot of `App`, and the event-loop exit flag) is modelled
directly. Render-frame outcomes (`wgpu::SurfaceError`) are external inputs:
the handler is parametrised by the result of `surface.get_current_texture()`.
-/

namespace Spectrum

/-- Mirror of `winit::dpi::PhysicalSize<u32>` (width and height in pixels). -/
structure PhysicalSize where
  width : Nat
  height : Nat
deriving Repr, DecidableEq

/-- Representative subset of `wgpu::TextureFormat` values a surface can report. -/
inductive TextureFormat where
  | Rgba8Unorm
  | Rgba8UnormSrgb
  | Bgra8Unorm
  | Bgra8UnormSrgb
  | Rgba16Float
deriving Repr, DecidableEq

/-- Mirror of `wgpu::TextureFormat::is_srgb` restricted to the modelled formats. -/
def TextureFormat.is_srgb : TextureFormat → Bool
  | TextureFormat.Rgba8UnormSrgb => true
  | TextureFormat.Bgra8UnormSrgb => true
  | _ => false

/-- Mirror of `wgpu::PresentMode`. -/
inductive PresentMode where
  | Fifo
  | FifoRelaxed
  | Immediate
  | Mailbox
deriving Repr, DecidableEq

/-- Mirror of `wgpu::CompositeAlphaMode`. -/
inductive AlphaMode where
  | Auto
  | Opaque
  | PreMultiplied
  | PostMultiplied
  | Inherit
deriving Repr, DecidableEq

/-- Mirror of `wgpu::TextureUsages`; the program only ever uses
`RENDER_ATTACHMENT`. -/
inductive TextureUsages where
  | RENDER_ATTACHMENT
deriving Repr, DecidableEq

/-- Mirror of `wgpu::SurfaceConfiguration` as built in `State::new`
(src/src/lib.rs lines 81-90). -/
structure SurfaceConfiguration where
  usage : TextureUsages
  format : TextureFormat
  width : Nat
  height : Nat
  present_mode : PresentMode
  alpha_mode : AlphaMode
  desired_maximum_frame_latency : Nat
  view_formats : List TextureFormat
deriving Repr, DecidableEq

/-- Mirror of `wgpu::SurfaceCapabilities` as consumed by `State::new`:
the capability report delivered by the platform. -/
structure SurfaceCapabilities where
  formats : List TextureFormat
  present_modes : List PresentMode
  alpha_modes : List AlphaMode
deriving Repr, DecidableEq

/-- Mirror of `wgpu::SurfaceError` (the four variants the handler matches). -/
inductive SurfaceError where
  | Timeout
  | Outdated
  | Lost
  | OutOfMemory
deriving Repr, DecidableEq

/-- Observable interactions with the opaque GPU/window resources, recorded as a
trace: `SurfaceConfigure` is `surface.configure(&device, &config)`,
`ResizeCall` is an invocation of `State::resize` with its argument,
`AcquireTexture`/`Submit`/`Present` are the stages of `State::render`,
`RequestRedraw` is `window.request_redraw()`, and `ExitLoop` is
`event_loop.exit()`. -/
inductive Effect where
  | SurfaceConfigure (config : SurfaceConfiguration)
  | ResizeCall (new_size : PhysicalSize)
  | AcquireTexture
  | Submit
  | Present
  | RequestRedraw
  | ExitLoop
deriving Repr, DecidableEq

/-- Decides whether an effect is an invocation of `State::resize`. -/
def Effect.isResizeCall : Effect → Bool
  | Effect.ResizeCall _ => true
  | _ => false

/-- Decides whether an effect is a `surface.configure` call. -/
def Effect.isSurfaceConfigure : Effect → Bool
  | Effect.SurfaceConfigure _ => true
  | _ => false

/-- Mirror of the data-bearing fields of `struct State` (src/src/lib.rs lines
15-23). The `surface`, `device`, `queue` handles are opaque; the `window`
handle is represented by its id, which `App::window_event` compares against
the incoming event's window id. -/
structure State where
  config : SurfaceConfiguration
  size : PhysicalSize
  surface_configured : Bool
  window_id : Nat
deriving Repr, DecidableEq

/-- Mirror of `State::new` (native, non-wasm path), restricted to its pure
configuration logic: given the window's id and inner size and the surface
capability report, derive the surface configuration, configure the surface
once, and mark it configured. Returns `none` when a capability list is empty
(the Rust code indexes `formats[0]`, `present_modes[0]`, `alpha_modes[0]` and
would panic). Note `unwrap_or(surface_caps.formats[0])` evaluates its argument
eagerly, so an empty format list panics even when an sRGB format would have
been found. -/
def State.new (window_id : Nat) (size : PhysicalSize) (surface_caps : SurfaceCapabilities) :
    Option (State × List Effect) :=
  match surface_caps.formats.head?, surface_caps.present_modes.head?,
      surface_caps.alpha_modes.head? with
  | some format0, some present_mode0, some alpha_mode0 =>
    let surface_format :=
      (surface_caps.formats.find? TextureFormat.is_srgb).getD format0
    let config : SurfaceConfiguration :=
      { usage := TextureUsages.RENDER_ATTACHMENT
        format := surface_format
        width := size.width
        height := size.height
        present_mode := present_mode0
        alpha_mode := alpha_mode0
        desired_maximum_frame_latency := 2
        view_formats := [] }
    some ({ config := config
            size := size
            surface_configured := true
            window_id := window_id },
          [Effect.SurfaceConfigure config])
  | _, _, _ => none

/-- Mirror of `State::resize` (src/src/lib.rs lines 114-121): when both
dimensions are positive, store the new size, update the configuration's
dimensions and reconfigure the surface; otherwise do nothing. The
`ResizeCall` effect records the invocation itself. -/
def State.resize (s : State) (new_size : PhysicalSize) : State × List Effect :=
  if new_size.width > 0 && new_size.height > 0 then
    let config := { s.config with width := new_size.width, height := new_size.height }
    ({ s with size := new_size, config := config },
     [Effect.ResizeCall new_size, Effect.SurfaceConfigure config])
  else
    (s, [Effect.ResizeCall new_size])

/-- Mirror of the window events `App::window_event` distinguishes:
close request, Escape key press-down, resize, redraw request, and everything
else (which falls to the wildcard arm). -/
inductive WindowEvent where
  | CloseRequested
  | KeyboardEscapePressed
  | Resized (physical_size : PhysicalSize)
  | RedrawRequested
  | Other
deriving Repr, DecidableEq

/-- Mirror of `State::input`, which always reports the event unhandled. -/
def State.input (_ : State) (_ : WindowEvent) : Bool :=
  false

/-- Mirror of `State::update`, a no-op extension point. -/
def State.update (s : State) : State :=
  s

/-- Mirror of `State::render` (src/src/lib.rs lines 129-170). The outcome of
`surface.get_current_texture()` is an external input `acquire`; on failure the
`?` operator returns the error with no work done, on success one command
buffer (a single clear pass) is built, submitted, and the texture presented. -/
def State.render (s : State) (acquire : Except SurfaceError Unit) :
    State × List Effect × Except SurfaceError Unit :=
  match acquire with
  | Except.ok _ => (s, [Effect.AcquireTexture, Effect.Submit, Effect.Present], Except.ok ())
  | Except.error e => (s, [], Except.error e)

/-- Mirror of `struct App` (src/src/lib.rs lines 177-180): the `Option<State>`
slot filled by the readiness signal, plus the event loop's exit flag (set by
`event_loop.exit()`, after which winit stops dispatching). -/
structure App where
  state : Option State
  exited : Bool
deriving Repr, DecidableEq

/-- Mirror of `App::new`: no state yet, loop running. -/
def App.new : App :=
  { state := none, exited := false }

/-- The FrameController states named by the specification. -/
inductive Mode where
  | Uninitialized
  | Active
  | Terminating
deriving Repr, DecidableEq

/-- Controller state as the specification describes it: `Uninitialized` before
the readiness signal delivers a `State`, `Terminating` once the event loop has
been told to exit, `Active` in between. -/
def App.mode (a : App) : Mode :=
  if a.exited then Mode.Terminating
  else
    match a.state with
    | none => Mode.Uninitialized
    | some _ => Mode.Active

/-- Mirror of `App::user_event`: the one-shot readiness signal stores the
constructed `State`. -/
def App.user_event (a : App) (s : State) : App :=
  { a with state := some s }

/-- Mirror of `App::window_event` (src/src/lib.rs lines 243-305). Events are
dropped while no `State` is attached or when the window id does not match;
otherwise close/Escape exit the loop, a resize marks the surface configured
and forwards to `State::resize`, and a redraw request renders a frame (when
configured) and applies the error-recovery policy to the render outcome. -/
def App.window_event (a : App) (window_id : Nat) (event : WindowEvent)
    (acquire : Except SurfaceError Unit) : App × List Effect :=
  match a.state with
  | none => (a, [])
  | some s =>
    if window_id ≠ s.window_id then (a, [])
    else if s.input event then (a, [])
    else
      match event with
      | WindowEvent.CloseRequested =>
          ({ a with exited := true }, [Effect.ExitLoop])
      | WindowEvent.KeyboardEscapePressed =>
          ({ a with exited := true }, [Effect.ExitLoop])
      | WindowEvent.Resized physical_size =>
          let s1 := { s with surface_configured := true }
          let r := s1.resize physical_size
          ({ a with state := some r.1 }, r.2)
      | WindowEvent.RedrawRequested =>
          if !s.surface_configured then (a, [])
          else
            let s1 := s.update
            let r := s1.render acquire
            match r.2.2 with
            | Except.ok _ => ({ a with state := some r.1 }, r.2.1)
            | Except.error SurfaceError.Lost =>
                let r2 := r.1.resize r.1.size
                ({ a with state := some r2.1 }, r.2.1 ++ r2.2)
            | Except.error SurfaceError.Outdated =>
                let r2 := r.1.resize r.1.size
                ({ a with state := some r2.1 }, r.2.1 ++ r2.2)
            | Except.error SurfaceError.OutOfMemory =>
                ({ a with state := some r.1, exited := true }, r.2.1 ++ [Effect.ExitLoop])
            | Except.error SurfaceError.Timeout =>
                ({ a with state := some r.1 }, r.2.1)
      | WindowEvent.Other => (a, [])

/-- Mirror of `App::about_to_wait` (src/src/lib.rs lines 307-311): request a
redraw if and only if a `State` is attached. -/
def App.about_to_wait (a : App) : App × List Effect :=
  match a.state with
  | some _ => (a, [Effect.RequestRedraw])
  | none => (a, [])

/-- One delivery from the winit event loop: a window event (with the external
render outcome for a potential redraw), the idle notification, or the
readiness signal carrying a constructed `State`. -/
inductive LoopEvent where
  | Window (window_id : Nat) (event : WindowEvent) (acquire : Except SurfaceError Unit)
  | AboutToWait
  | Ready (s : State)

/-- Dispatch of one loop delivery to the corresponding `App` handler. -/
def App.handle (a : App) : LoopEvent → App × List Effect
  | LoopEvent.Window window_id event acquire => a.window_event window_id event acquire
  | LoopEvent.AboutToWait => a.about_to_wait
  | LoopEvent.Ready s => (a.user_event s, [])

/-- The event loop's run semantics: deliveries are dispatched in order, and
once `event_loop.exit()` has been called (`exited = true`) `run_app` returns,
so nothing further is dispatched and no further effects occur. -/
def runLoop (a : App) : List LoopEvent → App × List Effect
  | [] => (a, [])
  | e :: es =>
      if a.exited then (a, [])
      else
        let r := a.handle e
        let rest := runLoop r.1 es
        (rest.1, r.2 ++ rest.2)

/-- The specification's size invariant: the configuration's dimensions equal
the most recently observed nonzero window size `obs`, and the stored `size`
field tracks the same value. -/
def SizeInv (obs : PhysicalSize) (s : State) : Prop :=
  s.config.width = obs.width ∧ s.config.height = obs.height ∧ s.size = obs

/-- Update of the "most recently observed nonzero window size" ghost value on
one window event: a resize addressed to this window (`wid0`) with both
dimensions positive replaces it; every other event leaves it alone. -/
def observeEvent (wid0 : Nat) (obs : PhysicalSize) (window_id : Nat)
    (event : WindowEvent) : PhysicalSize :=
  match event with
  | WindowEvent.Resized p =>
      if window_id = wid0 ∧ 0 < p.width ∧ 0 < p.height then p else obs
  | _ => obs

/-- A concrete surface configuration used to instantiate theorems with
hypotheses on closed inputs. -/
def exConfig : SurfaceConfiguration :=
  { usage := TextureUsages.RENDER_ATTACHMENT
    format := TextureFormat.Bgra8UnormSrgb
    width := 800
    height := 600
    present_mode := PresentMode.Fifo
    alpha_mode := AlphaMode.Opaque
    desired_maximum_frame_latency := 2
    view_formats := [] }

/-- A concrete configured `State` (window at 800 times 600 pixels). -/
def exState : State :=
  { config := exConfig
    size := { width := 800, height := 600 }
    surface_configured := true
    window_id := 0 }

/-- A concrete `App` in the Active state holding `exState`. -/
def exApp : App :=
  { state := some exState, exited := false }

/-- A concrete `State` whose surface has not been configured yet. -/
def exStateUnconfigured : State :=
  { exState with surface_configured := false }

/-- A concrete `App` holding the unconfigured state. -/
def exAppUnconfigured : App :=
  { state := some exStateUnconfigured, exited := false }

/-- A concrete capability report: the first format is not sRGB-capable, the
second is. -/
def exCaps : SurfaceCapabilities :=
  { formats := [TextureFormat.Bgra8Unorm, TextureFormat.Bgra8UnormSrgb,
                TextureFormat.Rgba8Unorm]
    present_modes := [PresentMode.Fifo, PresentMode.Immediate]
    alpha_modes := [AlphaMode.Opaque] }

/-- The `App` reached from `exApp` after a render frame fails with
`OutOfMemory`: the state slot is untouched and the loop has been told to
exit. -/
def exAppTerminating : App :=
  { state := some exState, exited := true }

/-- An `App` whose controller mode is `Terminating` has its exit flag set. -/
theorem exited_of_mode_terminating {b : App} (hb : b.mode = Mode.Terminating) :
    b.exited = true := by
  by_cases h : b.exited = true
  · exact h
  · simp only [App.mode, Bool.not_eq_true] at hb h
    rw [h] at hb
    cases hstate : b.state with
    | none => rw [hstate] at hb; simp at hb
    | some s => rw [hstate] at hb; simp at hb

/-- Once the exit flag is set, the event loop dispatches nothing further and
produces no further effects. -/
theorem runLoop_of_exited (b : App) (evs : List LoopEvent) (hb : b.exited = true) :
    runLoop b evs = (b, []) := by
  cases evs with
  | nil => rfl
  | cons e es => simp [runLoop, hb]

/-- C10: while the controller is Uninitialized (no `State` delivered yet),
every window event — including a close request or an Escape key press — is
dropped with no state change, no effects, and no loop termination. -/
theorem c10_uninitialized_drops_events (a : App) (window_id : Nat)
    (event : WindowEvent) (acquire : Except SurfaceError Unit)
    (hs : a.state = none) :
    a.window_event window_id event acquire = (a, []) := by
  simp [App.window_event, hs]

/-- C10 witness: a close request arriving before the readiness signal leaves
the fresh `App` untouched. -/
theorem c10_witness :
    App.new.window_event 5 WindowEvent.CloseRequested (Except.ok ()) = (App.new, []) :=
  c10_uninitialized_drops_events App.new 5 WindowEvent.CloseRequested (Except.ok ()) rfl

/-- C5: a redraw request received while `surface_configured = false` performs
no GPU work at all — no texture acquisition, no submission, no present, no
effect whatsoever — and leaves the whole controller unchanged, whatever the
pending render outcome would have been. -/
theorem c5_redraw_unconfigured_noop (a : App) (s : State)
    (acquire : Except SurfaceError Unit)
    (hs : a.state = some s) (hc : s.surface_configured = false) :
    a.window_event s.window_id WindowEvent.RedrawRequested acquire = (a, []) := by
  simp [App.window_event, hs, State.input, hc]

/-- C5 witness: a redraw request against the unconfigured example state is a
no-op. -/
theorem c5_witness :
    exAppUnconfigured.window_event exStateUnconfigured.window_id
      WindowEvent.RedrawRequested (Except.ok ()) = (exAppUnconfigured, []) :=
  c5_redraw_unconfigured_noop exAppUnconfigured exStateUnconfigured (Except.ok ()) rfl rfl

/-- C7: a render frame failing with `Timeout` is log-only: the controller is
left exactly as it was (configuration untouched), no effects are produced (in
particular no reconfiguration), and the controller stays Active. -/
theorem c7_timeout_log_only (a : App) (s : State)
    (hs : a.state = some s) (hc : s.surface_configured = true)
    (hx : a.exited = false) :
    a.window_event s.window_id WindowEvent.RedrawRequested
      (Except.error SurfaceError.Timeout) = (a, []) ∧
    a.mode = Mode.Active := by
  obtain ⟨ast, aex⟩ := a
  simp only [App.state] at hs
  subst hs
  simp only [App.exited] at hx
  subst hx
  constructor
  · simp [App.window_event, State.input, State.update, State.render, hc]
  · simp [App.mode]

/-- C7 witness: a timeout against the configured example state changes
nothing. -/
theorem c7_witness :
    exApp.window_event exState.window_id WindowEvent.RedrawRequested
      (Except.error SurfaceError.Timeout) = (exApp, []) ∧
    exApp.mode = Mode.Active :=
  c7_timeout_log_only exApp exState rfl rfl rfl

/-- C8 counterexample: in the Uninitialized controller state the idle
notification requests no redraw at all (there is no window yet), so the claim
that a redraw is requested unconditionally in every controller state is
false. -/
theorem c8_counterexample :
    App.new.mode = Mode.Uninitialized ∧
    App.new.about_to_wait = (App.new, []) ∧
    Effect.RequestRedraw ∉ (App.new.about_to_wait).2 := by
  refine ⟨rfl, rfl, ?_⟩
  simp [App.about_to_wait, App.new]

/-- C8 (amended): on every idle notification received while a
`GraphicsContext` is attached (controller state Active or Terminating), the
controller requests exactly one redraw and changes nothing else; while
Uninitialized it requests none. -/
theorem c8_redraw_on_idle_when_attached (a : App) (s : State)
    (hs : a.state = some s) :
    a.about_to_wait = (a, [Effect.RequestRedraw]) := by
  simp [App.about_to_wait, hs]

/-- C8 witness: the Active example app requests one redraw on idle. -/
theorem c8_witness :
    exApp.about_to_wait = (exApp, [Effect.RequestRedraw]) :=
  c8_redraw_on_idle_when_attached exApp exState rfl

/-- C4: `resize` is idempotent for positive dimensions — applying it twice
with the same size yields exactly the same `State` (size, configuration and
configured flag) as applying it once. -/
theorem c4_resize_idempotent (s : State) (new_size : PhysicalSize)
    (hw : 0 < new_size.width) (hh : 0 < new_size.height) :
    ((s.resize new_size).1.resize new_size).1 = (s.resize new_size).1 := by
  simp [State.resize, hw, hh]

/-- C4 witness: resizing the example state to 1024 times 768 twice equals
doing it once. -/
theorem c4_witness :
    ((exState.resize { width := 1024, height := 768 }).1.resize
        { width := 1024, height := 768 }).1 =
      (exState.resize { width := 1024, height := 768 }).1 :=
  c4_resize_idempotent exState { width := 1024, height := 768 }
    (by decide) (by decide)

/-- Handling a redraw whose acquisition fails with `Lost` or `Outdated`
reduces to one `State::resize` call at the stored size. -/
theorem window_event_lost_outdated (a : App) (s : State) (e : SurfaceError)
    (hs : a.state = some s) (hc : s.surface_configured = true)
    (he : e = SurfaceError.Lost ∨ e = SurfaceError.Outdated) :
    a.window_event s.window_id WindowEvent.RedrawRequested (Except.error e) =
      ({ a with state := some (s.resize s.size).1 }, (s.resize s.size).2) := by
  rcases he with rfl | rfl <;>
    simp [App.window_event, hs, State.input, State.update, State.render, hc]

/-- C1: when a render frame in the Active state fails with `Lost` or
`Outdated`, the controller makes exactly one `State::resize` call, at the
currently stored size, the controller stays Active, and the event loop keeps
running (the exit flag stays clear). -/
theorem c1_lost_outdated_one_reconfigure (a a' : App) (s : State)
    (e : SurfaceError) (effs : List Effect)
    (hs : a.state = some s) (hc : s.surface_configured = true)
    (hx : a.exited = false)
    (he : e = SurfaceError.Lost ∨ e = SurfaceError.Outdated)
    (hr : a.window_event s.window_id WindowEvent.RedrawRequested
            (Except.error e) = (a', effs)) :
    effs.filter Effect.isResizeCall = [Effect.ResizeCall s.size] ∧
    a'.exited = false ∧ a'.mode = Mode.Active := by
  rw [window_event_lost_outdated a s e hs hc he] at hr
  obtain ⟨rfl, rfl⟩ := Prod.mk.injEq .. ▸ hr
  refine ⟨?_, ?_, ?_⟩
  · unfold State.resize
    split <;> simp [Effect.isResizeCall]
  · simpa using hx
  · simp [App.mode, hx]

/-- C1 witness: a `Lost` failure against the configured 800 times 600 example
state produces exactly one resize call at 800 times 600 and leaves the app
Active. -/
theorem c1_witness :
    ([Effect.ResizeCall { width := 800, height := 600 },
      Effect.SurfaceConfigure exConfig].filter Effect.isResizeCall) =
        [Effect.ResizeCall exState.size] ∧
    exApp.exited = false ∧ exApp.mode = Mode.Active :=
  c1_lost_outdated_one_reconfigure exApp exApp exState SurfaceError.Lost
    [Effect.ResizeCall { width := 800, height := 600 },
     Effect.SurfaceConfigure exConfig]
    rfl rfl rfl (Or.inl rfl) (by decide)

/-- C2: a render frame in the Active state failing with `OutOfMemory` moves
the controller from Active to Terminating (the loop is told to exit), after
which the event loop dispatches nothing: no further frames are rendered and
no transition ever leaves Terminating. -/
theorem c2_oom_terminates (a a' : App) (s : State) (effs : List Effect)
    (evs : List LoopEvent) (b : App) (evs' : List LoopEvent)
    (hs : a.state = some s) (hc : s.surface_configured = true)
    (hx : a.exited = false)
    (hr : a.window_event s.window_id WindowEvent.RedrawRequested
            (Except.error SurfaceError.OutOfMemory) = (a', effs))
    (hb : b.mode = Mode.Terminating) :
    a.mode = Mode.Active ∧
    a'.mode = Mode.Terminating ∧
    Effect.ExitLoop ∈ effs ∧
    runLoop a' evs = (a', []) ∧
    runLoop b evs' = (b, []) := by
  have key : a.window_event s.window_id WindowEvent.RedrawRequested
      (Except.error SurfaceError.OutOfMemory) =
      ({ a with state := some s, exited := true }, [Effect.ExitLoop]) := by
    simp [App.window_event, hs, State.input, State.update, State.render, hc]
  rw [key] at hr
  obtain ⟨rfl, rfl⟩ := Prod.mk.injEq .. ▸ hr
  refine ⟨by simp [App.mode, hx, hs], by simp [App.mode], List.mem_singleton.mpr rfl,
    ?_, ?_⟩
  · exact runLoop_of_exited _ evs rfl
  · exact runLoop_of_exited b evs' (exited_of_mode_terminating hb)

/-- C2 witness: an `OutOfMemory` failure against the example app yields the
terminating app, and the loop thereafter dispatches neither a redraw nor a
resize delivery. -/
theorem c2_witness :
    exApp.mode = Mode.Active ∧
    exAppTerminating.mode = Mode.Terminating ∧
    Effect.ExitLoop ∈ [Effect.ExitLoop] ∧
    runLoop exAppTerminating
      [LoopEvent.AboutToWait,
       LoopEvent.Window 0 WindowEvent.RedrawRequested (Except.ok ())] =
      (exAppTerminating, []) ∧
    runLoop exAppTerminating
      [LoopEvent.Window 0 (WindowEvent.Resized { width := 32, height := 32 })
        (Except.ok ())] =
      (exAppTerminating, []) :=
  c2_oom_terminates exApp exAppTerminating exState [Effect.ExitLoop]
    [LoopEvent.AboutToWait,
     LoopEvent.Window 0 WindowEvent.RedrawRequested (Except.ok ())]
    exAppTerminating
    [LoopEvent.Window 0 (WindowEvent.Resized { width := 32, height := 32 })
      (Except.ok ())]
    rfl rfl rfl (by decide) rfl

/-- C3 counterexample: a zero-width resize event delivered to a not yet
configured controller leaves the configuration untouched but flips the
`configured` flag from `false` to `true` (the handler marks the surface
configured before `State::resize` checks the dimensions), so the flag does
not keep its prior value as the claim requires. -/
theorem c3_counterexample :
    exStateUnconfigured.surface_configured = false ∧
    ((exAppUnconfigured.window_event 0
        (WindowEvent.Resized { width := 0, height := 600 })
        (Except.ok ())).1.state.map (fun t => t.surface_configured)) = some true ∧
    ((exAppUnconfigured.window_event 0
        (WindowEvent.Resized { width := 0, height := 600 })
        (Except.ok ())).1.state.map (fun t => t.config)) = some exConfig := by
  refine ⟨rfl, ?_, ?_⟩ <;> decide

/-- C3 (amended): for every resize event carrying width = 0 or height = 0,
the surface configuration (every field) is unchanged and no surface
reconfiguration occurs; the `configured` flag, however, does not keep its
prior value — the handler sets it to `true` on every resize event, zero-sized
ones included. -/
theorem c3_zero_resize (a a' : App) (s : State) (physical_size : PhysicalSize)
    (acquire : Except SurfaceError Unit) (effs : List Effect)
    (hs : a.state = some s)
    (hz : physical_size.width = 0 ∨ physical_size.height = 0)
    (hr : a.window_event s.window_id (WindowEvent.Resized physical_size)
            acquire = (a', effs)) :
    a' = { a with state := some { s with surface_configured := true } } ∧
    effs = [Effect.ResizeCall physical_size] ∧
    effs.filter Effect.isSurfaceConfigure = [] := by
  have hcond : ¬(physical_size.width > 0 && physical_size.height > 0) = true := by
    rcases hz with h | h <;> simp [h]
  have key : a.window_event s.window_id (WindowEvent.Resized physical_size)
      acquire =
      ({ a with state := some { s with surface_configured := true } },
       [Effect.ResizeCall physical_size]) := by
    simp [App.window_event, hs, State.input, State.resize, hcond]
  rw [key] at hr
  obtain ⟨rfl, rfl⟩ := Prod.mk.injEq .. ▸ hr
  exact ⟨rfl, rfl, by simp [Effect.isSurfaceConfigure]⟩

/-- C3 amended-claim witness: a zero-width resize against the unconfigured
example app keeps the configuration, emits only the resize-call record, and
performs no surface reconfiguration. -/
theorem c3_witness :
    { state := some { exStateUnconfigured with surface_configured := true },
      exited := false } =
      { exAppUnconfigured with
          state := some { exStateUnconfigured with surface_configured := true } } ∧
    [Effect.ResizeCall { width := 0, height := 600 }] =
      [Effect.ResizeCall { width := 0, height := 600 }] ∧
    ([Effect.ResizeCall { width := 0, height := 600 }].filter
        Effect.isSurfaceConfigure) = [] := by
  have h := c3_zero_resize exAppUnconfigured
    { state := some { exStateUnconfigured with surface_configured := true },
      exited := false }
    exStateUnconfigured { width := 0, height := 600 } (Except.ok ())
    [Effect.ResizeCall { width := 0, height := 600 }]
    rfl (Or.inl rfl) (by decide)
  exact ⟨h.1.symm ▸ rfl, h.2.1 ▸ rfl, h.2.2⟩

/-- Finding the first sRGB-capable format: when a list splits as
`l1 ++ f :: l2` with nothing sRGB-capable in `l1` and `f` sRGB-capable, the
search returns `f`. -/
theorem find?_srgb_of_split (l1 l2 : List TextureFormat) (f : TextureFormat)
    (hf : f.is_srgb = true) (h1 : ∀ g ∈ l1, g.is_srgb = false) :
    (l1 ++ f :: l2).find? TextureFormat.is_srgb = some f := by
  induction l1 with
  | nil => simp [List.find?_cons_of_pos, hf]
  | cons a l ih =>
    have ha : a.is_srgb = false := h1 a (List.mem_cons_self a l)
    rw [List.cons_append, List.find?_cons_of_neg _ (by simp [ha])]
    exact ih fun g hg => h1 g (List.mem_cons_of_mem a hg)

/-- Characterisation of a successful `State::new`: all three capability lists
were non-empty, and the resulting state carries the derived configuration,
the construction size, the configured flag, and the single configure
effect. -/
theorem new_some_elim (window_id : Nat) (size : PhysicalSize)
    (caps : SurfaceCapabilities) (st : State) (effs : List Effect)
    (hn : State.new window_id size caps = some (st, effs)) :
    ∃ f0 pm0 am0,
      caps.formats.head? = some f0 ∧
      caps.present_modes.head? = some pm0 ∧
      caps.alpha_modes.head? = some am0 ∧
      st = { config :=
               { usage := TextureUsages.RENDER_ATTACHMENT
                 format := (caps.formats.find? TextureFormat.is_srgb).getD f0
                 width := size.width
                 height := size.height
                 present_mode := pm0
                 alpha_mode := am0
                 desired_maximum_frame_latency := 2
                 view_formats := [] }
             size := size
             surface_configured := true
             window_id := window_id } ∧
      effs = [Effect.SurfaceConfigure st.config] := by
  obtain ⟨formats, pms, ams⟩ := caps
  cases formats with
  | nil => simp [State.new] at hn
  | cons f0 fs =>
    cases pms with
    | nil => simp [State.new] at hn
    | cons pm0 ps =>
      cases ams with
      | nil => simp [State.new] at hn
      | cons am0 qs =>
        simp only [State.new, List.head?, Option.some.injEq, Prod.mk.injEq] at hn
        refine ⟨f0, pm0, am0, rfl, rfl, rfl, hn.1.symm, ?_⟩
        rw [← hn.1, ← hn.2]

/-- C6: construction selects the first sRGB-capable format of the reported
list (or the first reported format when none is sRGB-capable), and the
first-reported present mode and alpha mode. -/
theorem c6_selection (window_id : Nat) (size : PhysicalSize)
    (caps : SurfaceCapabilities) (f0 : TextureFormat) (pm0 : PresentMode)
    (am0 : AlphaMode) (st : State) (effs : List Effect)
    (hf : caps.formats.head? = some f0)
    (hp : caps.present_modes.head? = some pm0)
    (ha : caps.alpha_modes.head? = some am0)
    (hn : State.new window_id size caps = some (st, effs)) :
    st.config.present_mode = pm0 ∧ st.config.alpha_mode = am0 ∧
    ((∀ g ∈ caps.formats, g.is_srgb = false) → st.config.format = f0) ∧
    (∀ l1 f l2, caps.formats = l1 ++ f :: l2 → f.is_srgb = true →
      (∀ g ∈ l1, g.is_srgb = false) → st.config.format = f) := by
  obtain ⟨g0, qm0, b0, hg, hq, hb, hst, -⟩ :=
    new_some_elim window_id size caps st effs hn
  rw [hf] at hg
  rw [hp] at hq
  rw [ha] at hb
  obtain rfl : f0 = g0 := by injection hg
  obtain rfl : pm0 = qm0 := by injection hq
  obtain rfl : am0 = b0 := by injection hb
  subst hst
  refine ⟨rfl, rfl, ?_, ?_⟩
  · intro hall
    have : caps.formats.find? TextureFormat.is_srgb = none :=
      List.find?_eq_none.mpr fun x hx => by simp [hall x hx]
    simp [this]
  · intro l1 f l2 hsplit hfs h1
    have : caps.formats.find? TextureFormat.is_srgb = some f := by
      rw [hsplit]
      exact find?_srgb_of_split l1 l2 f hfs h1
    simp [this]

/-- C6 witness: with the example capability report (first format not
sRGB-capable, second sRGB-capable) construction picks the second format and
the first present and alpha modes. -/
theorem c6_witness :
    exState.config.present_mode = PresentMode.Fifo ∧
    exState.config.alpha_mode = AlphaMode.Opaque ∧
    exState.config.format = TextureFormat.Bgra8UnormSrgb := by
  have h := c6_selection 0 { width := 800, height := 600 } exCaps
    TextureFormat.Bgra8Unorm PresentMode.Fifo AlphaMode.Opaque exState
    [Effect.SurfaceConfigure exConfig] rfl rfl rfl (by decide)
  exact ⟨h.1, h.2.1,
    h.2.2.2 [TextureFormat.Bgra8Unorm] TextureFormat.Bgra8UnormSrgb
      [TextureFormat.Rgba8Unorm] rfl rfl (by decide)⟩

/-- One `State::resize` call updates the tracked nonzero size exactly when
both requested dimensions are positive, and preserves it otherwise. -/
theorem resize_sizeInv (s : State) (p obs : PhysicalSize) (h : SizeInv obs s) :
    SizeInv (if 0 < p.width ∧ 0 < p.height then p else obs) (s.resize p).1 := by
  obtain ⟨hcw, hch, hsz⟩ := h
  by_cases hp : 0 < p.width ∧ 0 < p.height
  · rw [if_pos hp]
    unfold State.resize
    split
    · exact ⟨rfl, rfl, rfl⟩
    · next hcond => exact absurd (by simp [hp.1, hp.2]) hcond
  · rw [if_neg hp]
    unfold State.resize
    split
    · next hcond =>
        rw [Bool.and_eq_true, decide_eq_true_eq, decide_eq_true_eq] at hcond
        exact absurd hcond hp
    · exact ⟨hcw, hch, hsz⟩

/-- The recovery call `resize(state.size)` (issued after `Lost`/`Outdated`)
preserves the tracked nonzero size. -/
theorem resize_self_sizeInv (s : State) (obs : PhysicalSize)
    (h : SizeInv obs s) : SizeInv obs (s.resize s.size).1 := by
  have h2 := resize_sizeInv s s.size obs h
  by_cases hp : 0 < s.size.width ∧ 0 < s.size.height
  · rw [if_pos hp] at h2
    rw [← h.2.2]
    exact h2
  · rwa [if_neg hp] at h2

/-- C9: the configuration's dimensions always equal the most recently
observed nonzero window size. Construction establishes the invariant at the
construction size, and every window event — resize (zero or positive), close,
redraw with any render outcome including the `Lost`/`Outdated` recovery path
— preserves it with respect to the ghost observation update `observeEvent`. -/
theorem c9_config_tracks_last_nonzero
    (window_id0 : Nat) (size0 : PhysicalSize) (caps : SurfaceCapabilities)
    (st0 : State) (effs0 : List Effect)
    (a a' : App) (s s' : State) (window_id : Nat) (event : WindowEvent)
    (acquire : Except SurfaceError Unit) (effs : List Effect)
    (obs : PhysicalSize)
    (hnew : State.new window_id0 size0 caps = some (st0, effs0))
    (hs : a.state = some s) (hinv : SizeInv obs s)
    (hev : a.window_event window_id event acquire = (a', effs))
    (hs' : a'.state = some s') :
    SizeInv size0 st0 ∧
    SizeInv (observeEvent s.window_id obs window_id event) s' := by
  constructor
  · obtain ⟨f0, pm0, am0, -, -, -, hst, -⟩ :=
      new_some_elim window_id0 size0 caps st0 effs0 hnew
    subst hst
    exact ⟨rfl, rfl, rfl⟩
  · obtain ⟨hcw, hch, hsz⟩ := hinv
    by_cases hw : window_id = s.window_id
    · subst hw
      cases event with
      | CloseRequested =>
          have key : a.window_event s.window_id WindowEvent.CloseRequested acquire =
              ({ a with exited := true }, [Effect.ExitLoop]) := by
            simp [App.window_event, hs, State.input]
          rw [key] at hev
          obtain ⟨rfl, rfl⟩ := Prod.mk.injEq .. ▸ hev
          obtain rfl : s = s' := by simp [hs] at hs'; exact hs'
          exact ⟨hcw, hch, hsz⟩
      | KeyboardEscapePressed =>
          have key : a.window_event s.window_id WindowEvent.KeyboardEscapePressed acquire =
              ({ a with exited := true }, [Effect.ExitLoop]) := by
            simp [App.window_event, hs, State.input]
          rw [key] at hev
          obtain ⟨rfl, rfl⟩ := Prod.mk.injEq .. ▸ hev
          obtain rfl : s = s' := by simp [hs] at hs'; exact hs'
          exact ⟨hcw, hch, hsz⟩
      | Other =>
          have key : a.window_event s.window_id WindowEvent.Other acquire = (a, []) := by
            simp [App.window_event, hs, State.input]
          rw [key] at hev
          obtain ⟨rfl, rfl⟩ := Prod.mk.injEq .. ▸ hev
          obtain rfl : s = s' := by rw [hs] at hs'; injection hs'
          exact ⟨hcw, hch, hsz⟩
      | Resized p =>
          have key : a.window_event s.window_id (WindowEvent.Resized p) acquire =
              ({ a with state := some (({ s with surface_configured := true }).resize p).1 },
               (({ s with surface_configured := true }).resize p).2) := by
            simp [App.window_event, hs, State.input]
          rw [key] at hev
          obtain ⟨rfl, rfl⟩ := Prod.mk.injEq .. ▸ hev
          obtain rfl : (({ s with surface_configured := true }).resize p).1 = s' := by
            simpa using hs'
          have hobs : observeEvent s.window_id obs s.window_id (WindowEvent.Resized p) =
              if 0 < p.width ∧ 0 < p.height then p else obs := by
            simp [observeEvent]
          rw [hobs]
          exact resize_sizeInv { s with surface_configured := true } p obs ⟨hcw, hch, hsz⟩
      | RedrawRequested =>
          have hobs : observeEvent s.window_id obs s.window_id WindowEvent.RedrawRequested
              = obs := rfl
          rw [hobs]
          by_cases hc : s.surface_configured = true
          · cases acquire with
            | ok u =>
                have key : a.window_event s.window_id WindowEvent.RedrawRequested
                    (Except.ok u) =
                    ({ a with state := some s },
                     [Effect.AcquireTexture, Effect.Submit, Effect.Present]) := by
                  simp [App.window_event, hs, State.input, State.update, State.render, hc]
                rw [key] at hev
                obtain ⟨rfl, rfl⟩ := Prod.mk.injEq .. ▸ hev
                obtain rfl : s = s' := by simpa using hs'
                exact ⟨hcw, hch, hsz⟩
            | error e =>
                cases e with
                | Timeout =>
                    have key : a.window_event s.window_id WindowEvent.RedrawRequested
                        (Except.error SurfaceError.Timeout) =
                        ({ a with state := some s }, []) := by
                      simp [App.window_event, hs, State.input, State.update,
                        State.render, hc]
                    rw [key] at hev
                    obtain ⟨rfl, rfl⟩ := Prod.mk.injEq .. ▸ hev
                    obtain rfl : s = s' := by simpa using hs'
                    exact ⟨hcw, hch, hsz⟩
                | OutOfMemory =>
                    have key : a.window_event s.window_id WindowEvent.RedrawRequested
                        (Except.error SurfaceError.OutOfMemory) =
                        ({ a with state := some s, exited := true },
                         [Effect.ExitLoop]) := by
                      simp [App.window_event, hs, State.input, State.update,
                        State.render, hc]
                    rw [key] at hev
                    obtain ⟨rfl, rfl⟩ := Prod.mk.injEq .. ▸ hev
                    obtain rfl : s = s' := by simpa using hs'
                    exact ⟨hcw, hch, hsz⟩
                | Lost =>
                    rw [window_event_lost_outdated a s SurfaceError.Lost hs hc
                      (Or.inl rfl)] at hev
                    obtain ⟨rfl, rfl⟩ := Prod.mk.injEq .. ▸ hev
                    obtain rfl : (s.resize s.size).1 = s' := by simpa using hs'
                    exact resize_self_sizeInv s obs ⟨hcw, hch, hsz⟩
                | Outdated =>
                    rw [window_event_lost_outdated a s SurfaceError.Outdated hs hc
                      (Or.inr rfl)] at hev
                    obtain ⟨rfl, rfl⟩ := Prod.mk.injEq .. ▸ hev
                    obtain rfl : (s.resize s.size).1 = s' := by simpa using hs'
                    exact resize_self_sizeInv s obs ⟨hcw, hch, hsz⟩
          · have hc' : s.surface_configured = false := by simpa using hc
            have key : a.window_event s.window_id WindowEvent.RedrawRequested acquire
                = (a, []) := by
              simp [App.window_event, hs, State.input, hc']
            rw [key] at hev
            obtain ⟨rfl, rfl⟩ := Prod.mk.injEq .. ▸ hev
            obtain rfl : s = s' := by rw [hs] at hs'; injection hs'
            exact ⟨hcw, hch, hsz⟩
    · have key : a.window_event window_id event acquire = (a, []) := by
        simp [App.window_event, hs, hw]
      rw [key] at hev
      obtain ⟨rfl, rfl⟩ := Prod.mk.injEq .. ▸ hev
      obtain rfl : s = s' := by rw [hs] at hs'; injection hs'
      cases event with
      | Resized p =>
          have hobs : observeEvent s.window_id obs window_id (WindowEvent.Resized p)
              = obs := if_neg (by simp [hw])
          rw [hobs]
          exact ⟨hcw, hch, hsz⟩
      | CloseRequested => exact ⟨hcw, hch, hsz⟩
      | KeyboardEscapePressed => exact ⟨hcw, hch, hsz⟩
      | RedrawRequested => exact ⟨hcw, hch, hsz⟩
      | Other => exact ⟨hcw, hch, hsz⟩

/-- C9 witness: construction at 800 times 600 establishes the invariant, and
a positive resize to 1024 times 768 carries it to the new size. -/
theorem c9_witness :
    SizeInv { width := 800, height := 600 } exState ∧
    SizeInv
      (observeEvent exState.window_id { width := 800, height := 600 } 0
        (WindowEvent.Resized { width := 1024, height := 768 }))
      { config :=
          { usage := TextureUsages.RENDER_ATTACHMENT
            format := TextureFormat.Bgra8UnormSrgb
            width := 1024
            height := 768
            present_mode := PresentMode.Fifo
            alpha_mode := AlphaMode.Opaque
            desired_maximum_frame_latency := 2
            view_formats := [] }
        size := { width := 1024, height := 768 }
        surface_configured := true
        window_id := 0 } :=
  c9_config_tracks_last_nonzero 0 { width := 800, height := 600 } exCaps
    exState [Effect.SurfaceConfigure exConfig]
    exApp
    { state := some
        { config :=
            { usage := TextureUsages.RENDER_ATTACHMENT
              format := TextureFormat.Bgra8UnormSrgb
              width := 1024
              height := 768
              present_mode := PresentMode.Fifo
              alpha_mode := AlphaMode.Opaque
              desired_maximum_frame_latency := 2
              view_formats := [] }
          size := { width := 1024, height := 768 }
          surface_configured := true
          window_id := 0 }
      exited := false }
    exState
    { config :=
        { usage := TextureUsages.RENDER_ATTACHMENT
          format := TextureFormat.Bgra8UnormSrgb
          width := 1024
          height := 768
          present_mode := PresentMode.Fifo
          alpha_mode := AlphaMode.Opaque
          desired_maximum_frame_latency := 2
          view_formats := [] }
      size := { width := 1024, height := 768 }
      surface_configured := true
      window_id := 0 }
    0 (WindowEvent.Resized { width := 1024, height := 768 }) (Except.ok ())
    [Effect.ResizeCall { width := 1024, height := 768 },
     Effect.SurfaceConfigure
       { usage := TextureUsages.RENDER_ATTACHMENT
         format := TextureFormat.Bgra8UnormSrgb
         width := 1024
         height := 768
         present_mode := PresentMode.Fifo
         alpha_mode := AlphaMode.Opaque
         desired_maximum_frame_latency := 2
         view_formats := [] }]
    { width := 800, height := 600 }
    (by decide) rfl ⟨rfl, rfl, rfl⟩ (by decide) rfl

end Spectrum
